import Mathlib

/-!
# PyQt5-MusicPlayer: a shallow embedding of the player's state coordination

The repository contains two near-duplicate player windows: `main.py`
(camelCase handlers) and `player.py` (snake_case handlers).  Both are
embedded here over one window-state type `St`.  The pyglet backend object
(`pyglet.media.Player`) is modeled by `Player`, recording the fields the
coordinator reads (`source`, `playing`, `volume`, `time`); commands the
coordinator sends to the backend are traced in a `List Cmd` returned next
to the new state.  `media.load` is modeled by a function argument
`load : Track → Option Nat` mapping a path to its duration in seconds,
with `none` standing for the load raising an exception; `random.shuffle`
is modeled by passing the shuffled list explicitly.  Operations of
`player.py` that can raise (its `play_song` has no try/except) return
`Except St (St × List Cmd)`, where the `error` payload is the window state
at the moment the exception escapes.  Qt sliders clamp `setValue` into
`[minimum, maximum]`; times are whole seconds (the sources truncate with
`int(...)` before every use modeled here).  The pyglet event-loop pump at
the top of both tick handlers only dispatches backend callbacks and is
external to the coordinator logic, so it is not part of the tick functions.
-/

namespace MusicPlayer

/-- A track is identified by its file path (spec §3: identity = path). -/
abbrev Track := String

/-- Commands the coordinator issues to the playback backend. -/
inductive Cmd where
  | pauseCmd : Cmd
  | playCmd : Cmd
  | queueCmd : Track → Cmd
  | seekCmd : Nat → Cmd
  deriving DecidableEq

/-- Model of `pyglet.media.Player`: just the fields the window reads. -/
structure Player where
  source : Option Track
  playing : Bool
  volume : ℚ
  time : Nat
  deriving DecidableEq

/-- `media.Player()`: freshly constructed backend player; pyglet's default
volume is 1.0 and nothing is queued or playing. -/
def Player.new : Player :=
  { source := none, playing := false, volume := 1, time := 0 }

/-- The window state shared by both variants (`MusicPlayerWindow`):
`songs`, `current_song_index`, `media_player`, the three boolean flags, the
play/pause button label, the progress slider (value and maximum) and the
two time labels. -/
structure St where
  songs : List Track
  current_song_index : Int
  media_player : Player
  is_paused : Bool
  seeking : Bool
  played_first_song : Bool
  pause_text : String
  progress_value : Nat
  progress_max : Nat
  current_time_text : String
  total_duration_text : String
  deriving DecidableEq

/-- `MusicPlayerWindow.__init__` (both variants): index −1, fresh player,
all flags false, button label "Play", slider range 0..100 at 0. -/
def initSt (songs : List Track) : St :=
  { songs := songs, current_song_index := -1, media_player := Player.new,
    is_paused := false, seeking := false, played_first_song := false,
    pause_text := "Play", progress_value := 0, progress_max := 100,
    current_time_text := "00:00", total_duration_text := "00:00" }

/-- Python's `f"{n:02d}"`. -/
def pad2 (n : Nat) : String := if n < 10 then "0" ++ toString n else toString n

/-- `MusicPlayerWindow.formatTime` (main.py): `mm:ss` from whole seconds. -/
def formatTime (seconds : Nat) : String :=
  pad2 (seconds / 60) ++ ":" ++ pad2 (seconds % 60)

/-- `MusicPlayerWindow.format_time` (player.py): same body as main.py's. -/
def format_time (seconds : Nat) : String := formatTime seconds

/-- `QSlider.setValue` on the progress slider: Qt clamps into
`[0, maximum]`. -/
def sliderSetValue (v : Nat) (s : St) : St :=
  { s with progress_value := min v s.progress_max }

/-- `MusicPlayerWindow.updateSongProgress` (main.py): progress maximum to
the new duration, value to 0, labels to the duration and "00:00". -/
def updateSongProgress (duration : Nat) (s : St) : St :=
  { s with progress_max := duration, progress_value := 0,
           total_duration_text := formatTime duration,
           current_time_text := "00:00" }

/-- `MusicPlayerWindow.playSong` (main.py).  `media.load` failures are
caught by the surrounding try/except: the error is printed and the method
returns before touching any state.  On success: `played_first_song = True`,
the old player is paused and replaced wholesale by a fresh one, the source
is queued and played, `is_paused = False`, button label "Pause", and the
progress controls are reset for the new duration. -/
def playSong (load : Track → Option Nat) (song_path : Track) (s : St) :
    St × List Cmd :=
  match load song_path with
  | none => (s, [])
  | some duration =>
      (updateSongProgress duration
        { s with
            played_first_song := true,
            media_player :=
              { Player.new with source := some song_path, playing := true },
            is_paused := false, pause_text := "Pause" },
       [Cmd.pauseCmd, Cmd.queueCmd song_path, Cmd.playCmd])

/-- `MusicPlayerWindow.handleSongClick` (main.py): sets
`current_song_index = songs.index(path)` and then calls `playSong`; note
the index is updated before the load is attempted. -/
def handleSongClick (load : Track → Option Nat) (song_path : Track) (s : St) :
    St × List Cmd :=
  playSong load song_path
    { s with current_song_index := (s.songs.indexOf song_path : Int) }

/-- `MusicPlayerWindow.playNextSong` (main.py): no-op only when the list is
empty; otherwise `new_index = (current + 1) % len(songs)` (Python `%`, i.e.
`Int.emod`) and `playSong` is called unconditionally. -/
def playNextSong (load : Track → Option Nat) (s : St) : St × List Cmd :=
  if s.songs = [] then (s, [])
  else
    let new_index : Int := (s.current_song_index + 1) % (s.songs.length : Int)
    playSong load (s.songs.getD new_index.toNat "")
      { s with current_song_index := new_index }

/-- `MusicPlayerWindow.handleSongEnd` (main.py): the `on_eos` backend
callback; resets the slider and advances. -/
def handleSongEnd (load : Track → Option Nat) (s : St) : St × List Cmd :=
  playNextSong load { s with progress_value := 0 }

/-- `MusicPlayerWindow.playFirstSong` (main.py): if the list is non-empty,
index 0 and play it. -/
def playFirstSong (load : Track → Option Nat) (s : St) : St × List Cmd :=
  if s.songs = [] then (s, [])
  else playSong load (s.songs.headD "") { s with current_song_index := 0 }

/-- `MusicPlayerWindow.togglePlayback` (main.py): pristine session →
`playFirstSong`; else pause when playing, resume when not, updating
`is_paused` and the button label. -/
def togglePlayback (load : Track → Option Nat) (s : St) : St × List Cmd :=
  if s.played_first_song = false then playFirstSong load s
  else if s.media_player.playing then
    ({ s with media_player := { s.media_player with playing := false },
              is_paused := true, pause_text := "Resume" }, [Cmd.pauseCmd])
  else
    ({ s with media_player := { s.media_player with playing := true },
              is_paused := false, pause_text := "Pause" }, [Cmd.playCmd])

/-- `MusicPlayerWindow.shufflePlaylist` (main.py): `random.shuffle` is
modeled by the `shuffled` argument; the view list is rebuilt, the index set
to 0, and `playSong(songs[0])` called; on an empty list the subscript
`songs[0]` raises `IndexError` (the `error` payload is the state at that
point). -/
def shufflePlaylist (load : Track → Option Nat) (shuffled : List Track)
    (s : St) : Except St (St × List Cmd) :=
  let s1 := { s with songs := shuffled, current_song_index := 0 }
  match shuffled with
  | [] => Except.error s1
  | t :: _ => Except.ok (playSong load t s1)

/-- `MusicPlayerWindow.updatePlaybackState` (main.py): the 100 ms tick.  If
a source is loaded and the user is not seeking, write the backend time to
the slider and label; otherwise do nothing. -/
def updatePlaybackState (s : St) : St × List Cmd :=
  if s.media_player.source.isSome && !s.seeking then
    ({ s with progress_value := min s.media_player.time s.progress_max,
              current_time_text := formatTime s.media_player.time }, [])
  else (s, [])

/-- `MusicPlayerWindow.handleSeekRelease` (main.py): clear `seeking`, then
seek to the slider value only if a source is loaded. -/
def handleSeekRelease (s : St) : St × List Cmd :=
  if s.media_player.source.isSome then
    ({ s with seeking := false }, [Cmd.seekCmd s.progress_value])
  else ({ s with seeking := false }, [])

/-- `MusicPlayerWindow.updateVolume` (main.py): `volume = value / 100.0` on
the current player object. -/
def updateVolume (value : Nat) (s : St) : St :=
  { s with media_player :=
      { s.media_player with volume := (value : ℚ) / 100 } }

/-- `MusicPlayerWindow.start_seeking` (player.py). -/
def start_seeking (s : St) : St := { s with seeking := true }

/-- `MusicPlayerWindow.stop_seeking` (player.py): same logic as main.py's
`handleSeekRelease`. -/
def stop_seeking (s : St) : St × List Cmd :=
  if s.media_player.source.isSome then
    ({ s with seeking := false }, [Cmd.seekCmd s.progress_value])
  else ({ s with seeking := false }, [])

/-- `MusicPlayerWindow.update_time_during_seek` (player.py). -/
def update_time_during_seek (position : Nat) (s : St) : St :=
  { s with current_time_text := format_time position }

/-- `MusicPlayerWindow.set_volume` (player.py): same as `updateVolume`. -/
def set_volume (value : Nat) (s : St) : St :=
  { s with media_player :=
      { s.media_player with volume := (value : ℚ) / 100 } }

/-- `MusicPlayerWindow.play_song` (player.py).  There is no try/except:
first `played_first_song = True`, the old player is paused and replaced by
a fresh `media.Player()`, and only then `media.load` runs — so a load
failure escapes the method with those mutations already applied (the
`error` payload).  On success the rest mirrors main.py's `playSong`. -/
def play_song (load : Track → Option Nat) (song_path : Track) (s : St) :
    Except St (St × List Cmd) :=
  let s1 := { s with played_first_song := true, media_player := Player.new }
  match load song_path with
  | none => Except.error s1
  | some duration =>
      Except.ok
        ({ s1 with
             media_player :=
               { Player.new with source := some song_path, playing := true },
             is_paused := false, pause_text := "Pause",
             progress_max := duration,
             total_duration_text := format_time duration,
             progress_value := 0, current_time_text := "00:00" },
         [Cmd.pauseCmd, Cmd.queueCmd song_path, Cmd.playCmd])

/-- `MusicPlayerWindow.play_first_song` (player.py). -/
def play_first_song (load : Track → Option Nat) (s : St) :
    Except St (St × List Cmd) :=
  if s.songs = [] then Except.ok (s, [])
  else play_song load (s.songs.headD "") { s with current_song_index := 0 }

/-- `MusicPlayerWindow.toggle_pause` (player.py): the `playing` test comes
first; the pristine branch runs `play_first_song` and then sets
`is_paused = False` and the label to "Pause" even when the list was empty
and nothing was played. -/
def toggle_pause (load : Track → Option Nat) (s : St) :
    Except St (St × List Cmd) :=
  if s.media_player.playing then
    Except.ok ({ s with media_player := { s.media_player with playing := false },
                        is_paused := true, pause_text := "Resume" },
               [Cmd.pauseCmd])
  else if s.played_first_song = false then
    match play_first_song load s with
    | Except.error e => Except.error e
    | Except.ok (s1, cmds) =>
        Except.ok ({ s1 with is_paused := false, pause_text := "Pause" }, cmds)
  else
    Except.ok ({ s with media_player := { s.media_player with playing := true },
                        is_paused := false, pause_text := "Pause" },
               [Cmd.playCmd])

/-- `MusicPlayerWindow.skip_song` (player.py): no-op at index −1; otherwise
step to `index + 1`, wrapping to 0 from the last position, and play only
when the index actually changed. -/
def skip_song (load : Track → Option Nat) (s : St) :
    Except St (St × List Cmd) :=
  if s.current_song_index = -1 then Except.ok (s, [])
  else
    let old_index := s.current_song_index
    let new_index : Int :=
      if s.current_song_index < (s.songs.length : Int) - 1 then
        s.current_song_index + 1
      else 0
    let s1 := { s with current_song_index := new_index }
    if old_index ≠ new_index then
      play_song load (s1.songs.getD new_index.toNat "") s1
    else Except.ok (s1, [])

/-- `MusicPlayerWindow.shuffle_playlist` (player.py): first reads
`songs[current_song_index]` when the index is not −1 (an out-of-range index
would raise `IndexError`; Python also accepts small negative indices), then
replaces the list by the shuffled one, sets index 0 and plays the first
song. -/
def shuffle_playlist (load : Track → Option Nat) (shuffled : List Track)
    (s : St) : Except St (St × List Cmd) :=
  if s.current_song_index ≠ -1 ∧
      ¬ (-(s.songs.length : Int) ≤ s.current_song_index ∧
         s.current_song_index < (s.songs.length : Int)) then
    Except.error s
  else
    play_first_song load { s with songs := shuffled, current_song_index := 0 }

/-- `MusicPlayerWindow.update_pyglet` (player.py): the 100 ms tick.  The
slider update requires a loaded source, `playing`, and not seeking; the
end-of-track inference (`not playing`, not user-paused, a track selected)
then runs `skip_song` — note it is NOT guarded by `seeking`. -/
def update_pyglet (load : Track → Option Nat) (s : St) :
    Except St (St × List Cmd) :=
  let s1 :=
    if s.media_player.source.isSome && s.media_player.playing && !s.seeking
    then
      { s with progress_value := min s.media_player.time s.progress_max,
               current_time_text := format_time s.media_player.time }
    else s
  if s1.media_player.playing = false ∧ s1.is_paused = false ∧
      s1.current_song_index ≠ -1 then
    skip_song load s1
  else Except.ok (s1, [])

/-- The window state an exception-capable operation ends in: the `error`
payload is the state at the moment the exception escaped. -/
def exceptState : Except St (St × List Cmd) → St
  | Except.error e => e
  | Except.ok r => r.1

/-- One main.py skip step, state part only (for iteration). -/
def stepMain (load : Track → Option Nat) (s : St) : St :=
  (playNextSong load s).1

/-- One player.py skip step, state part only (for iteration). -/
def stepSkip (load : Track → Option Nat) (s : St) : St :=
  exceptState (skip_song load s)

/-- Spec §3 invariant: `current_song_index` is −1 or a valid index. -/
def indexInvariant (s : St) : Prop :=
  s.current_song_index = -1 ∨
    (0 ≤ s.current_song_index ∧
     s.current_song_index < (s.songs.length : Int))

/-! ## Library scanner (`get_songs_list` in main.py and player.py)

Filenames are lists of characters; `os.listdir` is modeled by the
`entries` argument (the directory's entries in listing order — direct
entries only, there is no recursion in the source), and `os.path.exists`
by the `dirExists` flag.  `str.lower` is modeled on the ASCII range, which
is exhaustive for the characters the extension comparison can touch. -/

abbrev FileName := List Char

/-- ASCII `str.lower` on one character. -/
def lowerChar (c : Char) : Char :=
  if 65 ≤ c.toNat ∧ c.toNat ≤ 90 then Char.ofNat (c.toNat + 32) else c

/-- `str.lower` on a filename. -/
def lowerStr (f : FileName) : FileName := f.map lowerChar

/-- main.py's `SUPPORTED_FORMATS = (".mp3", ".wav", ".MP3", ".WAV")`. -/
def SUPPORTED_FORMATS : List FileName :=
  [".mp3".toList, ".wav".toList, ".MP3".toList, ".WAV".toList]

/-- `os.path.join(dir, f)` for a relative `f`. -/
def joinPath (d f : FileName) : FileName := d ++ ('/' :: f)

/-- `get_songs_list` (main.py): empty when the directory is missing, else
the full paths of the entries whose lowercased name ends with one of the
`SUPPORTED_FORMATS`, in listing order. -/
def get_songs_list (dirExists : Bool) (entries : List FileName)
    (song_dir : FileName) : List FileName :=
  if dirExists then
    (entries.filter fun f =>
        SUPPORTED_FORMATS.any fun ext => ext.isSuffixOf (lowerStr f)).map
      (joinPath song_dir)
  else []

/-- `get_songs_list(playlist)` (player.py): same shape with the literal
suffix pair `('.mp3', '.wav')` and the playlist directory. -/
def get_songs_list_playlist (dirExists : Bool) (entries : List FileName)
    (playlist_dir : FileName) : List FileName :=
  if dirExists then
    (entries.filter fun f =>
        ".mp3".toList.isSuffixOf (lowerStr f) ||
        ".wav".toList.isSuffixOf (lowerStr f)).map
      (joinPath playlist_dir)
  else []

/-- The Library Scanner contract in the spec's words (§4.1): the ordered
sequence of full paths of direct entries whose filename ends
case-insensitively with `.mp3` or `.wav`; empty when the directory does
not exist.  Spec-side definition, for comparison with the two source
functions. -/
def scannerSpec (dirExists : Bool) (entries : List FileName)
    (song_dir : FileName) : List FileName :=
  if dirExists then
    (entries.filter fun f =>
        ".mp3".toList.isSuffixOf (lowerStr f) ||
        ".wav".toList.isSuffixOf (lowerStr f)).map
      (joinPath song_dir)
  else []

/-! ## Concrete fixtures for counterexamples and witnesses -/

/-- A load function on which every track loads with duration 100 s. -/
def load0 : Track → Option Nat := fun _ => some 100

/-- A load function on which every load raises (corrupt file). -/
def loadFail : Track → Option Nat := fun _ => none

/-- Freshly opened window over the empty list. -/
def baseSt : St := initSt []

/-- Single-track session currently at (and playing) track 0. -/
def sOne : St :=
  { initSt ["a"] with
      current_song_index := 0, played_first_song := true,
      media_player := { Player.new with source := some "a", playing := true } }

/-- Two-track session, nothing selected yet. -/
def sNeg : St := initSt ["a", "b"]

/-- Two-track session at track 0, mid-drag (`seeking`), backend stopped. -/
def sCE : St :=
  { initSt ["a", "b"] with
      current_song_index := 0, played_first_song := true, seeking := true,
      media_player := { Player.new with source := some "a", playing := false },
      progress_value := 5 }

/-- Two-track pristine session at index 0. -/
def sAB : St := { initSt ["a", "b"] with current_song_index := 0 }

/-- Two-track session playing track 0 while the user drags the slider. -/
def sSeek : St :=
  { initSt ["a", "b"] with
      current_song_index := 0, played_first_song := true, seeking := true,
      media_player := { Player.new with source := some "a", playing := true },
      progress_value := 7 }

/-! ## Helper lemmas -/

theorem isSuffixOf_iff_suffix {l₁ l₂ : FileName} :
    l₁.isSuffixOf l₂ = true ↔ l₁ <:+ l₂ := by
  simp [List.isSuffixOf]

theorem lowerChar_not_upper (c : Char) :
    ¬ (65 ≤ (lowerChar c).toNat ∧ (lowerChar c).toNat ≤ 90) := by
  unfold lowerChar
  split
  · rename_i h
    obtain ⟨h1, h2⟩ := h
    generalize c.toNat = n at h1 h2 ⊢
    interval_cases n <;> decide
  · rename_i h
    exact h

theorem isSuffixOf_upper_false (f pat : FileName) (u : Char)
    (hu : 65 ≤ u.toNat ∧ u.toNat ≤ 90) (hmem : u ∈ pat) :
    pat.isSuffixOf (lowerStr f) = false := by
  by_contra h
  rw [Bool.not_eq_false] at h
  obtain ⟨ys, hy⟩ := isSuffixOf_iff_suffix.mp h
  have hmem2 : u ∈ lowerStr f := by
    rw [← hy]; exact List.mem_append_right ys hmem
  obtain ⟨c, _, hc⟩ := List.mem_map.mp hmem2
  exact lowerChar_not_upper c (hc ▸ hu)

theorem supported_eq (f : FileName) :
    (SUPPORTED_FORMATS.any fun ext => ext.isSuffixOf (lowerStr f)) =
      (".mp3".toList.isSuffixOf (lowerStr f) ||
       ".wav".toList.isSuffixOf (lowerStr f)) := by
  have h1 : (".MP3".toList.isSuffixOf (lowerStr f)) = false :=
    isSuffixOf_upper_false f _ 'M' (by decide) (by decide)
  have h2 : (".WAV".toList.isSuffixOf (lowerStr f)) = false :=
    isSuffixOf_upper_false f _ 'W' (by decide) (by decide)
  simp only [SUPPORTED_FORMATS, List.any_cons, List.any_nil, Bool.or_false]
  rw [h1, h2]
  simp

/-! ## C7: the library scanner -/

/-- C7: for every root directory, the scanner returns, in directory-listing
order, exactly the full paths of the direct entries whose filename ends
case-insensitively with `.mp3` or `.wav` (both source variants agree with
the spec-side `scannerSpec`), and a missing directory yields the empty
sequence rather than an error. -/
theorem scanner_correct (dirExists : Bool) (entries : List FileName)
    (dir : FileName) :
    get_songs_list dirExists entries dir = scannerSpec dirExists entries dir ∧
    get_songs_list_playlist dirExists entries dir =
      scannerSpec dirExists entries dir ∧
    get_songs_list false entries dir = [] := by
  refine ⟨?_, rfl, rfl⟩
  unfold get_songs_list scannerSpec
  cases dirExists
  · rfl
  · simp only [if_pos]
    congr 1
    exact List.filter_congr fun f _ => supported_eq f

/-! ## State helper lemmas -/

theorem playSong_songs (load : Track → Option Nat) (path : Track) (s : St) :
    ((playSong load path s).1).songs = s.songs := by
  unfold playSong; cases load path <;> rfl

theorem playSong_index (load : Track → Option Nat) (path : Track) (s : St) :
    ((playSong load path s).1).current_song_index = s.current_song_index := by
  unfold playSong; cases load path <;> rfl

theorem playSong_volume (load : Track → Option Nat) (path : Track) (s : St)
    (d : Nat) (h : load path = some d) :
    ((playSong load path s).1).media_player.volume = 1 := by
  unfold playSong; rw [h]; rfl

theorem play_song_songs (load : Track → Option Nat) (path : Track) (s : St) :
    (exceptState (play_song load path s)).songs = s.songs := by
  unfold play_song exceptState; cases load path <;> rfl

theorem play_song_index (load : Track → Option Nat) (path : Track) (s : St) :
    (exceptState (play_song load path s)).current_song_index =
      s.current_song_index := by
  unfold play_song exceptState; cases load path <;> rfl

theorem play_song_volume (load : Track → Option Nat) (path : Track) (s : St) :
    (exceptState (play_song load path s)).media_player.volume = 1 := by
  unfold play_song exceptState; cases load path <;> rfl

/-! ## Counterexamples (closed, at explicit inputs) -/

/-- C1 counterexample: main.py's `playNextSong` violates the claim at
explicit inputs.  On the single-track session `sOne` (index 0) it issues
pause/queue/play — restarting the current track — and on `sNeg`
(`current_song_index = -1`) it is not a no-op: it selects and plays track
0. -/
theorem playNextSong_single_restart :
    (playNextSong load0 sOne).2 =
      [Cmd.pauseCmd, Cmd.queueCmd "a", Cmd.playCmd] ∧
    sNeg.current_song_index = -1 ∧
    (playNextSong load0 sNeg).1.current_song_index = 0 ∧
    (playNextSong load0 sNeg).1.played_first_song = true := by
  exact ⟨rfl, rfl, rfl, rfl⟩

/-- C2 counterexample: in player.py a tick while `seeking = true` is not a
no-op.  On `sCE` (dragging, backend stopped, not paused, track 0 selected)
`update_pyglet` advances `current_song_index` from 0 to 1 and issues
backend commands. -/
theorem update_pyglet_seeking_advances :
    sCE.seeking = true ∧ sCE.current_song_index = 0 ∧
    update_pyglet load0 sCE =
      Except.ok ((exceptState (update_pyglet load0 sCE)),
        [Cmd.pauseCmd, Cmd.queueCmd "b", Cmd.playCmd]) ∧
    (exceptState (update_pyglet load0 sCE)).current_song_index = 1 := by
  exact ⟨rfl, rfl, rfl, rfl⟩

/-- C3 counterexample: a failing load is not caught in player.py —
`play_song` escapes with an exception (`Except.error`) after already
setting `played_first_song` and discarding the old backend player — and in
main.py the click handler has already moved `current_song_index` (0 → 1 on
`sAB`) before the aborted `playSong`, so the state is not "exactly as it
was". -/
theorem load_failure_escapes :
    play_song loadFail "x" baseSt =
      Except.error { baseSt with played_first_song := true,
                                 media_player := Player.new } ∧
    baseSt.played_first_song = false ∧
    sAB.current_song_index = 0 ∧
    (handleSongClick loadFail "b" sAB).1.current_song_index = 1 := by
  exact ⟨rfl, rfl, rfl, rfl⟩

/-- C6 counterexample: on the empty pristine session `baseSt`, player.py's
`toggle_pause` is not a no-op — it sets the button label from "Play" to
"Pause" although nothing is played. -/
theorem toggle_empty_not_noop :
    baseSt.songs = [] ∧ baseSt.played_first_song = false ∧
    baseSt.pause_text = "Play" ∧
    toggle_pause load0 baseSt =
      Except.ok ({ baseSt with is_paused := false, pause_text := "Pause" },
        []) := by
  exact ⟨rfl, rfl, rfl, rfl⟩

/-! ## C2 (amended): the tick while seeking -/

/-- C2 amended: while `seeking` is true the tick never writes the backend
position to the progress display in either variant, and main.py's
`updatePlaybackState` changes nothing at all and issues no commands; but
player.py's `update_pyglet` still runs the end-of-track auto-advance: when
the backend is not playing, the user has not paused, and a track is
selected, the tick equals `skip_song` (which may change
`current_song_index`, the display, and issue commands), and only outside
that condition is it a no-op. -/
theorem tick_seeking_amended (load : Track → Option Nat) (s : St)
    (hseek : s.seeking = true) :
    updatePlaybackState s = (s, []) ∧
    (s.media_player.playing = true ∨ s.is_paused = true ∨
        s.current_song_index = -1 →
      update_pyglet load s = Except.ok (s, [])) ∧
    (s.media_player.playing = false → s.is_paused = false →
        s.current_song_index ≠ -1 →
      update_pyglet load s = skip_song load s) := by
  refine ⟨?_, ?_, ?_⟩
  · simp [updatePlaybackState, hseek]
  · intro h
    unfold update_pyglet
    simp only [hseek, Bool.and_false, Bool.not_true, Bool.and_self]
    rcases h with h | h | h <;> simp [h]
  · intro h1 h2 h3
    unfold update_pyglet
    simp only [hseek, Bool.and_false, Bool.not_true, Bool.and_self]
    simp [h1, h2, h3]

/-- C2 amended witness: on `sSeek` (seeking, backend playing) both ticks
are no-ops. -/
theorem tick_seeking_amended_witness :
    sSeek.seeking = true ∧ updatePlaybackState sSeek = (sSeek, []) ∧
    update_pyglet load0 sSeek = Except.ok (sSeek, []) := by
  have h := tick_seeking_amended load0 sSeek rfl
  exact ⟨rfl, h.1, h.2.1 (Or.inl rfl)⟩

/-! ## C9: endSeek -/

/-- C9: both `handleSeekRelease` (main.py) and `stop_seeking` (player.py)
always clear `seeking` and change nothing else in the window state; when a
track is loaded they issue exactly one seek command, for the slider value —
which `setValue` has clamped into `[0, progress_max]`, i.e. `[0, duration]`
— independent of where the drag started; with no track loaded they issue no
command and raise no error. -/
theorem endSeek_correct (s : St) :
    (handleSeekRelease s).1 = { s with seeking := false } ∧
    (stop_seeking s).1 = { s with seeking := false } ∧
    (s.media_player.source.isSome = true →
      handleSeekRelease s =
        ({ s with seeking := false }, [Cmd.seekCmd s.progress_value]) ∧
      stop_seeking s =
        ({ s with seeking := false }, [Cmd.seekCmd s.progress_value]) ∧
      (∀ v : Nat,
        stop_seeking (sliderSetValue v s) =
          ({ sliderSetValue v s with seeking := false },
           [Cmd.seekCmd (min v s.progress_max)]) ∧
        handleSeekRelease (sliderSetValue v s) =
          ({ sliderSetValue v s with seeking := false },
           [Cmd.seekCmd (min v s.progress_max)]) ∧
        min v s.progress_max ≤ s.progress_max)) ∧
    (s.media_player.source.isSome = false →
      handleSeekRelease s = ({ s with seeking := false }, []) ∧
      stop_seeking s = ({ s with seeking := false }, [])) := by
  refine ⟨?_, ?_, ?_, ?_⟩
  · unfold handleSeekRelease; split <;> rfl
  · unfold stop_seeking; split <;> rfl
  · intro h
    refine ⟨by simp [handleSeekRelease, h], by simp [stop_seeking, h], ?_⟩
    intro v
    refine ⟨by simp [stop_seeking, sliderSetValue, h],
            by simp [handleSeekRelease, sliderSetValue, h],
            Nat.min_le_right v s.progress_max⟩
  · intro h
    exact ⟨by simp [handleSeekRelease, h], by simp [stop_seeking, h]⟩

/-- C9 witness: on the loaded session `sOne` the release issues exactly one
seek for the (clamped) slider value; on the unloaded `baseSt` it is a
command-free no-op. -/
theorem endSeek_correct_witness :
    sOne.media_player.source.isSome = true ∧
    stop_seeking sOne =
      ({ sOne with seeking := false }, [Cmd.seekCmd sOne.progress_value]) ∧
    baseSt.media_player.source.isSome = false ∧
    handleSeekRelease baseSt = ({ baseSt with seeking := false }, []) := by
  exact ⟨rfl, ((endSeek_correct sOne).2.2.1 rfl).2.1, rfl,
         ((endSeek_correct baseSt).2.2.2 rfl).1⟩

/-! ## C3 (amended): load failure -/

/-- C3 amended: in main.py the failing load is caught inside `playSong`,
logged, and the method returns with the window state exactly as it entered
it and no backend command issued — but the click handler has already
written `current_song_index` before calling `playSong` and does not roll it
back.  In player.py nothing catches the failure: `play_song` escapes with
the exception after `played_first_song` has been set and the old backend
player has been replaced by a fresh one. -/
theorem load_failure_amended (load : Track → Option Nat) (path : Track)
    (s : St) (h : load path = none) :
    playSong load path s = (s, []) ∧
    handleSongClick load path s =
      ({ s with current_song_index := (s.songs.indexOf path : Int) }, []) ∧
    play_song load path s =
      Except.error { s with played_first_song := true,
                            media_player := Player.new } := by
  refine ⟨?_, ?_, ?_⟩
  · unfold playSong; rw [h]
  · unfold handleSongClick playSong; rw [h]
  · unfold play_song; rw [h]

/-- C3 amended witness: with every load failing, `playSong` on `sAB`
returns the state unchanged, and `play_song` escapes with the mutated
state. -/
theorem load_failure_amended_witness :
    loadFail "a" = none ∧ playSong loadFail "a" sAB = (sAB, []) ∧
    play_song loadFail "a" sAB =
      Except.error { sAB with played_first_song := true,
                              media_player := Player.new } := by
  have h := load_failure_amended loadFail "a" sAB rfl
  exact ⟨rfl, h.1, h.2.2⟩

/-! ## C6 (amended): togglePlayPause -/

/-- C6 amended: on a pristine session (`played_first_song = false`, backend
not playing) with a non-empty list, both variants behave identically to
selecting track 0 (index 0 plus play of the head track); with an empty
list, main.py's `togglePlayback` is a no-op but player.py's `toggle_pause`
still clears `is_paused` and sets the button label to "Pause".  On a
started session, both variants issue pause and set `is_paused = true`
(label "Resume") when the backend reports playing, and otherwise issue
resume and set `is_paused = false` (label "Pause"). -/
theorem togglePlayPause_amended (load : Track → Option Nat) (s : St) :
    (s.played_first_song = false → s.media_player.playing = false →
      (s.songs = [] →
        togglePlayback load s = (s, []) ∧
        toggle_pause load s =
          Except.ok ({ s with is_paused := false, pause_text := "Pause" },
            [])) ∧
      (s.songs ≠ [] →
        togglePlayback load s =
          playSong load (s.songs.headD "")
            { s with current_song_index := 0 } ∧
        toggle_pause load s =
          play_song load (s.songs.headD "")
            { s with current_song_index := 0 })) ∧
    (s.played_first_song = true → s.media_player.playing = true →
      togglePlayback load s =
        ({ s with media_player := { s.media_player with playing := false },
                  is_paused := true, pause_text := "Resume" },
         [Cmd.pauseCmd]) ∧
      toggle_pause load s =
        Except.ok
          ({ s with media_player := { s.media_player with playing := false },
                    is_paused := true, pause_text := "Resume" },
           [Cmd.pauseCmd])) ∧
    (s.played_first_song = true → s.media_player.playing = false →
      togglePlayback load s =
        ({ s with media_player := { s.media_player with playing := true },
                  is_paused := false, pause_text := "Pause" },
         [Cmd.playCmd]) ∧
      toggle_pause load s =
        Except.ok
          ({ s with media_player := { s.media_player with playing := true },
                    is_paused := false, pause_text := "Pause" },
           [Cmd.playCmd])) := by
  refine ⟨?_, ?_, ?_⟩
  · intro hp hplay
    constructor
    · intro hne
      constructor
      · simp [togglePlayback, playFirstSong, hp, hne]
      · simp [toggle_pause, play_first_song, hp, hplay, hne]
    · intro hne
      constructor
      · simp [togglePlayback, playFirstSong, hp, hne]
      · unfold toggle_pause play_first_song
        rw [hplay, hp]
        simp only [if_neg hne, Bool.false_eq_true, if_false, if_pos rfl]
        unfold play_song
        cases load (s.songs.headD "") <;> rfl
  · intro hp hplay
    constructor
    · simp [togglePlayback, hp, hplay]
    · simp [toggle_pause, hp, hplay]
  · intro hp hplay
    constructor
    · simp [togglePlayback, hp, hplay]
    · simp [toggle_pause, hp, hplay]

/-- C6 amended witness: on the pristine two-track session `sNeg`, both
toggles equal selecting track 0. -/
theorem togglePlayPause_amended_witness :
    sNeg.played_first_song = false ∧ sNeg.media_player.playing = false ∧
    sNeg.songs ≠ [] ∧
    togglePlayback load0 sNeg =
      playSong load0 "a" { sNeg with current_song_index := 0 } ∧
    toggle_pause load0 sNeg =
      play_song load0 "a" { sNeg with current_song_index := 0 } := by
  have h := ((togglePlayPause_amended load0 sNeg).1 rfl rfl).2 (by decide)
  exact ⟨rfl, rfl, by decide, h.1, h.2⟩

theorem St.set_index_eq (s : St) (x : Int) (h : s.current_song_index = x) :
    { s with current_song_index := x } = s := by
  cases s; simp_all

/-! ## C1 (amended): skipToNext -/

/-- C1 amended: player.py's `skip_song` satisfies the claim exactly — a
no-op at index −1, and at a valid index `i` it moves to `(i+1) mod N`,
invoking playback only when the index actually changes, so a single-track
list neither moves nor restarts.  main.py's `playNextSong`, by contrast, is
a no-op only when the list is empty: otherwise it always sets the index to
`(current+1) mod N` and always restarts playback via `playSong`, including
on a single-track list and from index −1 (where it plays track 0). -/
theorem skipToNext_amended (load : Track → Option Nat) (s : St) :
    (s.current_song_index = -1 → skip_song load s = Except.ok (s, [])) ∧
    (∀ i : Nat, s.current_song_index = (i : Int) → i < s.songs.length →
      (s.songs.length = 1 → skip_song load s = Except.ok (s, [])) ∧
      (1 < s.songs.length →
        skip_song load s =
          play_song load (s.songs.getD ((i + 1) % s.songs.length) "")
            { s with current_song_index :=
                (((i + 1) % s.songs.length : Nat) : Int) })) ∧
    (s.songs ≠ [] →
      playNextSong load s =
        playSong load
          (s.songs.getD
            (((s.current_song_index + 1) % (s.songs.length : Int)).toNat) "")
          { s with current_song_index :=
              (s.current_song_index + 1) % (s.songs.length : Int) }) := by
  refine ⟨?_, ?_, ?_⟩
  · intro h; simp [skip_song, h]
  · intro i hi hlen
    constructor
    · intro h1
      have hi0 : i = 0 := by omega
      subst hi0
      have hi' : s.current_song_index = 0 := by exact_mod_cast hi
      have hnlt : ¬ ((0 : Int) < (s.songs.length : Int) - 1) := by
        rw [h1]; norm_num
      simp only [skip_song, hi']
      rw [if_neg (by norm_num : ¬ ((0 : Int) = -1)),
          if_neg hnlt, if_neg (by norm_num : ¬ ((0 : Int) ≠ 0)),
          St.set_index_eq s 0 hi']
    · intro hN
      rcases Nat.lt_or_ge (i + 1) s.songs.length with hc | hc
      · have hmod : (i + 1) % s.songs.length = i + 1 := Nat.mod_eq_of_lt hc
        have e1 : ((i : Int) + 1).toNat = i + 1 := by omega
        have e2 : ((i : Int) + 1) = ((i + 1 : Nat) : Int) := by push_cast; ring
        have hlt : (i : Int) < (s.songs.length : Int) - 1 := by omega
        simp only [skip_song, hi]
        rw [if_neg (by omega : ¬ ((i : Int) = -1)), if_pos hlt,
            if_pos (by omega : (i : Int) ≠ (i : Int) + 1),
            hmod, e1, e2]
      · have hiN : i + 1 = s.songs.length := by omega
        have hmod : (i + 1) % s.songs.length = 0 := by
          rw [hiN, Nat.mod_self]
        have hnlt : ¬ ((i : Int) < (s.songs.length : Int) - 1) := by omega
        simp only [skip_song, hi]
        rw [if_neg (by omega : ¬ ((i : Int) = -1)), if_neg hnlt,
            if_pos (by omega : (i : Int) ≠ 0), hmod]
        rfl
  · intro hne
    simp only [playNextSong, if_neg hne]

/-- C1 amended witness: on the two-track session `sAB` at index 0,
`skip_song` equals playing track 1, and on the single-track `sOne` it is a
strict no-op. -/
theorem skipToNext_amended_witness :
    skip_song load0 sAB =
      play_song load0 (sAB.songs.getD ((0 + 1) % sAB.songs.length) "")
        { sAB with current_song_index :=
            (((0 + 1) % sAB.songs.length : Nat) : Int) } ∧
    skip_song load0 sOne = Except.ok (sOne, []) := by
  refine ⟨((skipToNext_amended load0 sAB).2.1 0 rfl (by decide)).2 (by decide),
          ((skipToNext_amended load0 sOne).2.1 0 rfl (by decide)).1 (by decide)⟩

/-! ## Step lemmas for iterated skipping -/

theorem skip_song_noop_single (load : Track → Option Nat) (s : St)
    (hi : s.current_song_index = 0) (h1 : s.songs.length = 1) :
    skip_song load s = Except.ok (s, []) := by
  have hnlt : ¬ ((0 : Int) < (s.songs.length : Int) - 1) := by
    rw [h1]; norm_num
  simp only [skip_song, hi]
  rw [if_neg (by norm_num : ¬ ((0 : Int) = -1)), if_neg hnlt,
      if_neg (by norm_num : ¬ ((0 : Int) ≠ 0)), St.set_index_eq s 0 hi]

theorem skip_song_plays (load : Track → Option Nat) (s : St) (i : Nat)
    (hi : s.current_song_index = (i : Int)) (hlt : i < s.songs.length)
    (hN : 1 < s.songs.length) :
    skip_song load s =
      play_song load (s.songs.getD ((i + 1) % s.songs.length) "")
        { s with current_song_index :=
            (((i + 1) % s.songs.length : Nat) : Int) } := by
  rcases Nat.lt_or_ge (i + 1) s.songs.length with hc | hc
  · have hmod : (i + 1) % s.songs.length = i + 1 := Nat.mod_eq_of_lt hc
    have e1 : ((i : Int) + 1).toNat = i + 1 := by omega
    have e2 : ((i : Int) + 1) = ((i + 1 : Nat) : Int) := by push_cast; ring
    have hlt2 : (i : Int) < (s.songs.length : Int) - 1 := by omega
    simp only [skip_song, hi]
    rw [if_neg (by omega : ¬ ((i : Int) = -1)), if_pos hlt2,
        if_pos (by omega : (i : Int) ≠ (i : Int) + 1), hmod, e1, e2]
  · have hiN : i + 1 = s.songs.length := by omega
    have hmod : (i + 1) % s.songs.length = 0 := by rw [hiN, Nat.mod_self]
    have hnlt : ¬ ((i : Int) < (s.songs.length : Int) - 1) := by omega
    simp only [skip_song, hi]
    rw [if_neg (by omega : ¬ ((i : Int) = -1)), if_neg hnlt,
        if_pos (by omega : (i : Int) ≠ 0), hmod]
    rfl

theorem stepSkip_spec (load : Track → Option Nat) (s : St) (i : Nat)
    (hi : s.current_song_index = (i : Int)) (hlt : i < s.songs.length) :
    (stepSkip load s).songs = s.songs ∧
    (stepSkip load s).current_song_index =
      (((i + 1) % s.songs.length : Nat) : Int) := by
  rcases Nat.lt_or_ge 1 s.songs.length with hN | hN
  · rw [stepSkip, skip_song_plays load s i hi hlt hN]
    refine ⟨?_, ?_⟩
    · rw [play_song_songs]
    · rw [play_song_index]
  · have h1 : s.songs.length = 1 := by omega
    have hi0 : i = 0 := by omega
    subst hi0
    rw [stepSkip,
        skip_song_noop_single load s (by exact_mod_cast hi) h1]
    refine ⟨rfl, ?_⟩
    rw [h1]
    simpa using hi

theorem stepMain_spec (load : Track → Option Nat) (s : St) (i : Nat)
    (hi : s.current_song_index = (i : Int)) (hlt : i < s.songs.length) :
    (stepMain load s).songs = s.songs ∧
    (stepMain load s).current_song_index =
      (((i + 1) % s.songs.length : Nat) : Int) := by
  have hne : s.songs ≠ [] := by
    intro h; rw [h] at hlt; simp at hlt
  simp only [stepMain, playNextSong, if_neg hne]
  refine ⟨?_, ?_⟩
  · rw [playSong_songs]
  · rw [playSong_index]
    show (s.current_song_index + 1) % (s.songs.length : Int) = _
    rw [hi]
    push_cast
    rfl

theorem mod_succ_step (k N : Nat) (hN : 0 < N) :
    (k % N + 1) % N = (k + 1) % N := by
  by_cases h1 : N = 1
  · subst h1; simp [Nat.mod_one]
  · have h : 1 % N = 1 := Nat.mod_eq_of_lt (by omega)
    conv_rhs => rw [Nat.add_mod]
    rw [h]

theorem iterate_skip_index (load : Track → Option Nat) (s : St)
    (hne : s.songs ≠ []) (h0 : s.current_song_index = 0) (k : Nat) :
    ((stepMain load)^[k] s).songs = s.songs ∧
    ((stepMain load)^[k] s).current_song_index =
      ((k % s.songs.length : Nat) : Int) ∧
    ((stepSkip load)^[k] s).songs = s.songs ∧
    ((stepSkip load)^[k] s).current_song_index =
      ((k % s.songs.length : Nat) : Int) := by
  have hNpos : 0 < s.songs.length := List.length_pos.mpr hne
  induction k with
  | zero => refine ⟨rfl, by simp [h0], rfl, by simp [h0]⟩
  | succ k ih =>
      obtain ⟨ihms, ihmi, ihss, ihsi⟩ := ih
      have hmlt : k % s.songs.length <
          ((stepMain load)^[k] s).songs.length := by
        rw [ihms]; exact Nat.mod_lt _ hNpos
      have hm := stepMain_spec load ((stepMain load)^[k] s)
        (k % s.songs.length) ihmi hmlt
      have hslt : k % s.songs.length <
          ((stepSkip load)^[k] s).songs.length := by
        rw [ihss]; exact Nat.mod_lt _ hNpos
      have hs := stepSkip_spec load ((stepSkip load)^[k] s)
        (k % s.songs.length) ihsi hslt
      refine ⟨?_, ?_, ?_, ?_⟩
      · rw [Function.iterate_succ_apply', hm.1, ihms]
      · rw [Function.iterate_succ_apply', hm.2, ihms,
            mod_succ_step _ _ hNpos]
      · rw [Function.iterate_succ_apply', hs.1, ihss]
      · rw [Function.iterate_succ_apply', hs.2, ihss,
            mod_succ_step _ _ hNpos]

/-! ## C8: the cyclic property of skipping -/

/-- C8: from index 0 on a non-empty list of length N, composing the skip
operation N times returns `current_song_index` to 0 in both variants
(main.py's `playNextSong` and player.py's `skip_song`), and on a
single-track list the index is 0 after every number of skips. -/
theorem skip_cyclic (load : Track → Option Nat) (s : St)
    (hne : s.songs ≠ []) (h0 : s.current_song_index = 0) :
    ((stepMain load)^[s.songs.length] s).current_song_index = 0 ∧
    ((stepSkip load)^[s.songs.length] s).current_song_index = 0 ∧
    (s.songs.length = 1 →
      ∀ k : Nat,
        ((stepMain load)^[k] s).current_song_index = 0 ∧
        ((stepSkip load)^[k] s).current_song_index = 0) := by
  refine ⟨?_, ?_, ?_⟩
  · rw [(iterate_skip_index load s hne h0 s.songs.length).2.1,
        Nat.mod_self]
    simp
  · rw [(iterate_skip_index load s hne h0 s.songs.length).2.2.2,
        Nat.mod_self]
    simp
  · intro h1 k
    constructor
    · rw [(iterate_skip_index load s hne h0 k).2.1, h1, Nat.mod_one]
      simp
    · rw [(iterate_skip_index load s hne h0 k).2.2.2, h1, Nat.mod_one]
      simp

/-- C8 witness: on the two-track session `sAB`, two skips of either
variant return the index to 0. -/
theorem skip_cyclic_witness :
    sAB.songs ≠ [] ∧ sAB.current_song_index = 0 ∧
    ((stepMain load0)^[sAB.songs.length] sAB).current_song_index = 0 ∧
    ((stepSkip load0)^[sAB.songs.length] sAB).current_song_index = 0 := by
  have h := skip_cyclic load0 sAB (by decide) rfl
  exact ⟨by decide, rfl, h.1, h.2.1⟩

/-! ## Invariant helper lemmas -/

theorem playSong_inv (load : Track → Option Nat) (path : Track) (s : St)
    (hinv : indexInvariant s) :
    indexInvariant ((playSong load path s).1) := by
  unfold indexInvariant at hinv ⊢
  rw [playSong_index, playSong_songs]
  exact hinv

theorem play_song_inv (load : Track → Option Nat) (path : Track) (s : St)
    (hinv : indexInvariant s) :
    indexInvariant (exceptState (play_song load path s)) := by
  unfold indexInvariant at hinv ⊢
  rw [play_song_index, play_song_songs]
  exact hinv

theorem skip_song_inv (load : Track → Option Nat) (s : St)
    (hinv : indexInvariant s) :
    indexInvariant (exceptState (skip_song load s)) := by
  unfold indexInvariant at hinv
  rcases hinv with h | ⟨h0, hlt⟩
  · simp only [skip_song, if_pos h]
    exact Or.inl h
  · have hi : s.current_song_index = ((s.current_song_index.toNat : Nat) : Int) :=
      (Int.toNat_of_nonneg h0).symm
    have hlt' : s.current_song_index.toNat < s.songs.length := by omega
    rcases Nat.lt_or_ge 1 s.songs.length with hN | hN
    · rw [skip_song_plays load s _ hi hlt' hN]
      have hm : (s.current_song_index.toNat + 1) % s.songs.length <
          s.songs.length := Nat.mod_lt _ (by omega)
      refine Or.inr ⟨?_, ?_⟩
      · rw [play_song_index]
        show (0 : Int) ≤
          (((s.current_song_index.toNat + 1) % s.songs.length : Nat) : Int)
        exact_mod_cast Nat.zero_le _
      · rw [play_song_index, play_song_songs]
        show (((s.current_song_index.toNat + 1) % s.songs.length : Nat) : Int) <
          (s.songs.length : Int)
        exact_mod_cast hm
    · have h1 : s.songs.length = 1 := by omega
      have hi0 : s.current_song_index = 0 := by omega
      rw [skip_song_noop_single load s hi0 h1]
      exact Or.inr ⟨h0, hlt⟩

theorem shufflePlaylist_state (load : Track → Option Nat)
    (shuffled : List Track) (s : St) (hsne : shuffled ≠ []) :
    (exceptState (shufflePlaylist load shuffled s)).songs = shuffled ∧
    (exceptState (shufflePlaylist load shuffled s)).current_song_index = 0 ∧
    shufflePlaylist load shuffled s =
      Except.ok (playSong load (shuffled.headD "")
        { s with songs := shuffled, current_song_index := 0 }) := by
  cases shuffled with
  | nil => exact absurd rfl hsne
  | cons t ts =>
      refine ⟨?_, ?_, rfl⟩
      · show ((playSong load t
            { s with songs := t :: ts, current_song_index := 0 }).1).songs =
          t :: ts
        rw [playSong_songs]
      · show ((playSong load t
            { s with songs := t :: ts,
                     current_song_index := 0 }).1).current_song_index = 0
        rw [playSong_index]

theorem shuffle_playlist_state (load : Track → Option Nat)
    (shuffled : List Track) (s : St) (hinv : indexInvariant s)
    (hsne : shuffled ≠ []) :
    (exceptState (shuffle_playlist load shuffled s)).songs = shuffled ∧
    (exceptState (shuffle_playlist load shuffled s)).current_song_index = 0 ∧
    shuffle_playlist load shuffled s =
      play_song load (shuffled.headD "")
        { s with songs := shuffled, current_song_index := 0 } := by
  have hguard : ¬ (s.current_song_index ≠ -1 ∧
      ¬ (-(s.songs.length : Int) ≤ s.current_song_index ∧
         s.current_song_index < (s.songs.length : Int))) := by
    unfold indexInvariant at hinv
    omega
  have hb : shuffle_playlist load shuffled s =
      play_song load (shuffled.headD "")
        { s with songs := shuffled, current_song_index := 0 } := by
    unfold shuffle_playlist
    rw [if_neg hguard]
    unfold play_first_song
    rw [if_neg (hsne : ¬ _)]
  refine ⟨?_, ?_, hb⟩
  · rw [hb, play_song_songs]
  · rw [hb, play_song_index]

theorem toggle_pause_inv (load : Track → Option Nat) (s : St)
    (hne : s.songs ≠ []) (hinv : indexInvariant s) :
    indexInvariant (exceptState (toggle_pause load s)) := by
  have hlen := List.length_pos.mpr hne
  unfold toggle_pause
  split_ifs with hpl hp
  · exact hinv
  · unfold play_first_song
    rw [if_neg hne]
    have h1 := play_song_songs load (s.songs.headD "")
      { s with current_song_index := 0 }
    have h2 := play_song_index load (s.songs.headD "")
      { s with current_song_index := 0 }
    cases hps : play_song load (s.songs.headD "")
        { s with current_song_index := 0 } with
    | error e =>
        rw [hps] at h1 h2
        simp only [exceptState] at h1 h2
        unfold indexInvariant
        show e.current_song_index = -1 ∨
          (0 ≤ e.current_song_index ∧
           e.current_song_index < (e.songs.length : Int))
        rw [h1, h2]
        right
        constructor
        · norm_num
        · show (0 : Int) < (s.songs.length : Int)
          exact_mod_cast hlen
    | ok r =>
        obtain ⟨s1, cmds⟩ := r
        rw [hps] at h1 h2
        simp only [exceptState] at h1 h2
        unfold indexInvariant
        show s1.current_song_index = -1 ∨
          (0 ≤ s1.current_song_index ∧
           s1.current_song_index < (s1.songs.length : Int))
        rw [h1, h2]
        right
        constructor
        · norm_num
        · show (0 : Int) < (s.songs.length : Int)
          exact_mod_cast hlen
  · exact hinv

theorem update_pyglet_inv (load : Track → Option Nat) (s : St)
    (hinv : indexInvariant s) :
    indexInvariant (exceptState (update_pyglet load s)) := by
  simp only [update_pyglet]
  split_ifs with h1 h2 h3
  · exact skip_song_inv load _ hinv
  · exact hinv
  · exact skip_song_inv load _ hinv
  · exact hinv

/-! ## C4: the index invariant -/

/-- C4: `current_song_index` is −1 or a valid index in every reachable
state: it holds in the initial window state, and — on a session whose list
is non-empty (the window is only opened with tracks) — it is preserved by
every operation of both variants: selecting a clicked track, toggling
play/pause, skipping, the periodic tick, releasing a seek, and shuffling;
and both shuffle operations (which replace the track list wholesale) set
`current_song_index` to 0. -/
theorem index_invariant_preserved (load : Track → Option Nat) (s : St)
    (shuffled : List Track) (path : Track) (ts : List Track)
    (hne : s.songs ≠ []) (hinv : indexInvariant s)
    (hperm : shuffled.Perm s.songs) (hpath : path ∈ s.songs) :
    indexInvariant (initSt ts) ∧
    indexInvariant (handleSongClick load path s).1 ∧
    indexInvariant (togglePlayback load s).1 ∧
    indexInvariant (playNextSong load s).1 ∧
    indexInvariant (updatePlaybackState s).1 ∧
    indexInvariant (exceptState (shufflePlaylist load shuffled s)) ∧
    (exceptState (shufflePlaylist load shuffled s)).current_song_index = 0 ∧
    indexInvariant (exceptState (play_song load path s)) ∧
    indexInvariant (exceptState (toggle_pause load s)) ∧
    indexInvariant (exceptState (skip_song load s)) ∧
    indexInvariant (exceptState (update_pyglet load s)) ∧
    indexInvariant (exceptState (shuffle_playlist load shuffled s)) ∧
    (exceptState (shuffle_playlist load shuffled s)).current_song_index = 0 ∧
    indexInvariant (stop_seeking s).1 ∧
    indexInvariant (handleSeekRelease s).1 := by
  have hlen : 0 < s.songs.length := List.length_pos.mpr hne
  have hsne : shuffled ≠ [] := fun h => hne (List.nil_perm.mp (h ▸ hperm))
  obtain ⟨hA1, hA2, hA3⟩ := shufflePlaylist_state load shuffled s hsne
  obtain ⟨hB1, hB2, hB3⟩ := shuffle_playlist_state load shuffled s hinv hsne
  have hslen : 0 < shuffled.length := List.length_pos.mpr hsne
  refine ⟨Or.inl rfl, ?_, ?_, ?_, ?_, ?_, hA2, ?_, ?_, ?_, ?_, ?_, hB2,
          ?_, ?_⟩
  · -- handleSongClick
    have hIdxLt : s.songs.indexOf path < s.songs.length :=
      List.indexOf_lt_length.mpr hpath
    unfold handleSongClick indexInvariant
    rw [playSong_index, playSong_songs]
    show ((s.songs.indexOf path : Nat) : Int) = -1 ∨
      (0 ≤ ((s.songs.indexOf path : Nat) : Int) ∧
       ((s.songs.indexOf path : Nat) : Int) < (s.songs.length : Int))
    omega
  · -- togglePlayback
    unfold togglePlayback
    split_ifs with hp hpl
    · unfold playFirstSong
      rw [if_neg hne]
      refine playSong_inv load _ _ (Or.inr ⟨?_, ?_⟩)
      · show (0 : Int) ≤ 0
        norm_num
      · show (0 : Int) < (s.songs.length : Int)
        exact_mod_cast hlen
    · exact hinv
    · exact hinv
  · -- playNextSong
    have hNz : (s.songs.length : Int) ≠ 0 := by omega
    unfold playNextSong
    rw [if_neg hne]
    refine playSong_inv load _ _ (Or.inr ⟨?_, ?_⟩)
    · show (0 : Int) ≤
        (s.current_song_index + 1) % (s.songs.length : Int)
      exact Int.emod_nonneg _ hNz
    · show (s.current_song_index + 1) % (s.songs.length : Int) <
        (s.songs.length : Int)
      exact Int.emod_lt_of_pos _ (by omega)
  · -- updatePlaybackState
    unfold updatePlaybackState
    split_ifs
    · exact hinv
    · exact hinv
  · -- shufflePlaylist invariant
    unfold indexInvariant
    rw [hA1, hA2]
    right
    refine ⟨by norm_num, ?_⟩
    exact_mod_cast hslen
  · exact play_song_inv load path s hinv
  · exact toggle_pause_inv load s hne hinv
  · exact skip_song_inv load s hinv
  · exact update_pyglet_inv load s hinv
  · -- shuffle_playlist invariant
    unfold indexInvariant
    rw [hB1, hB2]
    right
    refine ⟨by norm_num, ?_⟩
    exact_mod_cast hslen
  · unfold stop_seeking
    split_ifs
    · exact hinv
    · exact hinv
  · unfold handleSeekRelease
    split_ifs
    · exact hinv
    · exact hinv

/-- C4 witness: on the two-track session `sAB` with the shuffled list
`["b", "a"]` and the clicked track "a", the invariant holds before and
after. -/
theorem index_invariant_preserved_witness :
    sAB.songs ≠ [] ∧ indexInvariant sAB ∧
    indexInvariant (handleSongClick load0 "a" sAB).1 ∧
    indexInvariant (initSt []) := by
  have h := index_invariant_preserved load0 sAB ["b", "a"] "a" []
    (by decide) (Or.inr ⟨by decide, by decide⟩) (by decide) (by decide)
  exact ⟨by decide, Or.inr ⟨by decide, by decide⟩, h.2.1, h.1⟩

/-! ## C5: shuffle -/

/-- C5: for every shuffled reordering, both shuffle operations leave the
track list a permutation (same multiset) of the previous one, and on a
non-empty list both equal "set `current_song_index` to 0 and play the new
first element" — main.py's via `playSong`, player.py's via `play_song` —
so the resulting index is 0. -/
theorem shuffle_correct (load : Track → Option Nat) (s : St)
    (shuffled : List Track) (hperm : shuffled.Perm s.songs)
    (hne : s.songs ≠ []) (hinv : indexInvariant s) :
    (exceptState (shufflePlaylist load shuffled s)).songs.Perm s.songs ∧
    (exceptState (shuffle_playlist load shuffled s)).songs.Perm s.songs ∧
    shufflePlaylist load shuffled s =
      Except.ok (playSong load (shuffled.headD "")
        { s with songs := shuffled, current_song_index := 0 }) ∧
    shuffle_playlist load shuffled s =
      play_song load (shuffled.headD "")
        { s with songs := shuffled, current_song_index := 0 } ∧
    (exceptState (shufflePlaylist load shuffled s)).current_song_index = 0 ∧
    (exceptState (shuffle_playlist load shuffled s)).current_song_index
      = 0 := by
  have hsne : shuffled ≠ [] := fun h => hne (List.nil_perm.mp (h ▸ hperm))
  obtain ⟨hA1, hA2, hA3⟩ := shufflePlaylist_state load shuffled s hsne
  obtain ⟨hB1, hB2, hB3⟩ := shuffle_playlist_state load shuffled s hinv hsne
  exact ⟨by rw [hA1]; exact hperm, by rw [hB1]; exact hperm,
         hA3, hB3, hA2, hB2⟩

/-- C5 witness: shuffling `sAB` into `["b", "a"]` plays the new head "b"
from index 0 in both variants. -/
theorem shuffle_correct_witness :
    (["b", "a"] : List Track).Perm sAB.songs ∧
    shufflePlaylist load0 ["b", "a"] sAB =
      Except.ok (playSong load0 "b"
        { sAB with songs := ["b", "a"], current_song_index := 0 }) ∧
    (exceptState (shuffle_playlist load0 ["b", "a"] sAB)).current_song_index
      = 0 := by
  have h := shuffle_correct load0 sAB ["b", "a"] (by decide) (by decide)
    (Or.inr ⟨by decide, by decide⟩)
  exact ⟨by decide, h.2.2.1, h.2.2.2.2.2⟩

/-! ## C10: volume after a track change -/

/-- C10: `setVolume` acts on the current backend player only
(`volume = p / 100`), and every track-changing operation of either variant
— selecting, skipping, end-of-track advance, or shuffling — replaces the
backend player wholesale with a freshly constructed one whose volume is
the backend default 1, never reapplying the slider's value: after the
change the playback volume is 1 regardless of the earlier `setVolume p`. -/
theorem volume_reset_after_track_change (load : Track → Option Nat)
    (s : St) (path : Track) (shuffled : List Track) (p : Nat) (d : Nat)
    (i : Nat) (hload : ∀ t, load t = some d)
    (hne : s.songs ≠ []) (hinv : indexInvariant s)
    (hperm : shuffled.Perm s.songs)
    (hi : s.current_song_index = (i : Int)) (hiN : i < s.songs.length)
    (hN : 2 ≤ s.songs.length) :
    (updateVolume p s).media_player.volume = (p : ℚ) / 100 ∧
    (set_volume p s).media_player.volume = (p : ℚ) / 100 ∧
    (playSong load path (updateVolume p s)).1.media_player.volume = 1 ∧
    (exceptState (play_song load path (set_volume p s))).media_player.volume
      = 1 ∧
    (playNextSong load (updateVolume p s)).1.media_player.volume = 1 ∧
    (handleSongEnd load (updateVolume p s)).1.media_player.volume = 1 ∧
    (exceptState (skip_song load (set_volume p s))).media_player.volume
      = 1 ∧
    (exceptState
        (shufflePlaylist load shuffled
          (updateVolume p s))).media_player.volume = 1 ∧
    (exceptState
        (shuffle_playlist load shuffled
          (set_volume p s))).media_player.volume = 1 := by
  have hsne : shuffled ≠ [] := fun h => hne (List.nil_perm.mp (h ▸ hperm))
  refine ⟨rfl, rfl, playSong_volume load path _ d (hload path),
          play_song_volume load path _, ?_, ?_, ?_, ?_, ?_⟩
  · unfold playNextSong
    split_ifs with h
    · exact absurd h hne
    · exact playSong_volume load _ _ d (hload _)
  · unfold handleSongEnd playNextSong
    split_ifs with h
    · exact absurd h hne
    · exact playSong_volume load _ _ d (hload _)
  · rw [skip_song_plays load (set_volume p s) i hi hiN
        (show 1 < (set_volume p s).songs.length from hN)]
    exact play_song_volume load _ _
  · obtain ⟨_, _, hA3⟩ :=
      shufflePlaylist_state load shuffled (updateVolume p s) hsne
    rw [hA3]
    exact playSong_volume load _ _ d (hload _)
  · obtain ⟨_, _, hB3⟩ :=
      shuffle_playlist_state load shuffled (set_volume p s) hinv hsne
    rw [hB3]
    exact play_song_volume load _ _

/-- C10 witness: after `setVolume 50` on `sAB` the volume is 1/2, yet
selecting track "a" or skipping resets it to the backend default 1. -/
theorem volume_reset_after_track_change_witness :
    (updateVolume 50 sAB).media_player.volume = (50 : ℚ) / 100 ∧
    (playSong load0 "a" (updateVolume 50 sAB)).1.media_player.volume = 1 ∧
    (exceptState (skip_song load0 (set_volume 50 sAB))).media_player.volume
      = 1 := by
  have h := volume_reset_after_track_change load0 sAB "a" ["b", "a"] 50 100
    0 (fun _ => rfl) (by decide) (Or.inr ⟨by decide, by decide⟩) (by decide)
    rfl (by decide) (by decide)
  exact ⟨h.1, h.2.2.1, h.2.2.2.2.2.2.1⟩

end MusicPlayer
